import Mathlib

/-!
Shallow embedding of the NE-NETRA risk aggregation engine
(`backend/risk_aggregation.py`, data model from `backend/incident_ingestion.py`).

Modelling conventions:
* `datetime` values are rationals measured in hours, so that
  `(reference_time - signal_time).total_seconds() / 3600` becomes plain
  subtraction of rationals.
* Python floats are modelled as real numbers; `math.exp` is `Real.exp`.
* A function that defaults an omitted `reference_time` to `datetime.now()`
  receives the wall clock as an explicit `now : ℚ` argument; an explicit
  reference time is `some r`.
* Python dicts keyed by the three `RiskLayer` values are total functions
  `RiskLayer → ℝ`; insertion order (cognitive, network, physical) is kept
  wherever the source iterates over the dict.
-/

namespace NeNetra

open Classical

/-- Risk classification layers (`incident_ingestion.RiskLayer`). -/
inductive RiskLayer where
  | cognitive
  | network
  | physical
  deriving DecidableEq

/-- String value of a layer, as in the Python `str`-valued enum. -/
def RiskLayer.value : RiskLayer → String
  | .cognitive => "cognitive"
  | .network => "network"
  | .physical => "physical"

/-- Signal polarity (`incident_ingestion.Polarity`). -/
inductive Polarity where
  | escalatory
  | stabilizing
  | neutral
  deriving DecidableEq

/-- Geographic sensitivity markers (`incident_ingestion.GeoSensitivity`). -/
inductive GeoSensitivity where
  | border
  | market
  | highway
  | capital
  | sensitive_zone
  deriving DecidableEq

/-- Structured risk signal (`incident_ingestion.ProcessedSignal`), restricted
to the fields the aggregation engine reads. -/
structure ProcessedSignal where
  state : String
  district : String
  location : Option String
  event_summary : String
  timestamp : ℚ
  source_type : String
  risk_layers : List RiskLayer
  polarity : Polarity
  severity_score : ℕ
  geo_sensitivity : List GeoSensitivity
  deriving DecidableEq

/-- Sanitised top-signal summary dict built by `select_top_signals`. -/
structure TopSignal where
  event_summary : String
  severity : ℕ
  timestamp : ℚ
  source_type : String
  layers : List String
  location : String
  deriving DecidableEq

/-- Computed district risk score (`risk_aggregation.DistrictRiskScore`);
`threshold_label`, `threshold_range`, `threshold_crossed` flatten the
`threshold_info` dict. -/
structure DistrictRiskScore where
  district : String
  state : String
  composite_score : ℝ
  layer_scores : RiskLayer → ℝ
  primary_trigger : String
  secondary_triggers : List String
  trend : String
  top_signals : List TopSignal
  threshold_label : String
  threshold_range : String
  threshold_crossed : Prop
  time_window : String
  signal_count : ℕ
  timestamp : ℚ

namespace RiskThreshold

/-- Threshold constant `RiskThreshold.MONITORING = 30`. -/
def MONITORING : ℝ := 30

/-- Threshold constant `RiskThreshold.PREVENTIVE = 60`. -/
def PREVENTIVE : ℝ := 60

/-- Threshold constant `RiskThreshold.SENIOR_REVIEW = 75`. -/
def SENIOR_REVIEW : ℝ := 75

/-- Threshold constant `RiskThreshold.CRITICAL = 90`. -/
def CRITICAL : ℝ := 90

/-- `RiskThreshold.get_label`: cascade of `score >= threshold` tests. -/
noncomputable def get_label (score : ℝ) : String :=
  if CRITICAL ≤ score then "CRITICAL"
  else if SENIOR_REVIEW ≤ score then "SENIOR_REVIEW"
  else if PREVENTIVE ≤ score then "PREVENTIVE_READINESS"
  else if MONITORING ≤ score then "MONITORING"
  else "BASELINE"

/-- `RiskThreshold.get_range`: score range string for a threshold label. -/
def get_range (label : String) : String :=
  if label = "BASELINE" then "0-29"
  else if label = "MONITORING" then "30-59"
  else if label = "PREVENTIVE_READINESS" then "60-74"
  else if label = "SENIOR_REVIEW" then "75-89"
  else if label = "CRITICAL" then "90-100"
  else "Unknown"

end RiskThreshold

/-- `RiskAggregationEngine.RECENCY_DECAY`. -/
noncomputable def RECENCY_DECAY : ℝ := 0.5

/-- `RiskAggregationEngine.GEO_SENSITIVITY_MULTIPLIERS` (total on the enum,
so the Python `dict.get(tag, 1.0)` default is never taken). -/
noncomputable def GEO_SENSITIVITY_MULTIPLIERS : GeoSensitivity → ℝ
  | .border => 1.5
  | .market => 1.2
  | .highway => 1.3
  | .capital => 1.4
  | .sensitive_zone => 1.6

/-- `RiskAggregationEngine.LAYER_WEIGHTS`: every layer weighs `1.0`. -/
noncomputable def LAYER_WEIGHTS : RiskLayer → ℝ := fun _ => 1.0

/-- `RiskAggregationEngine.filter_by_time_window`: keeps signals with
`signal.timestamp >= reference_time - window_hours`; the source has no
upper bound test. -/
def filter_by_time_window (signals : List ProcessedSignal) (window_hours : ℤ)
    (reference_time : ℚ) : List ProcessedSignal :=
  signals.filter (fun s => reference_time - window_hours ≤ s.timestamp)

/-- `RiskAggregationEngine.calculate_recency_weight`:
`max(0.1, exp(-RECENCY_DECAY * hours_ago / 24))` with
`hours_ago = reference_time - signal_time` (in hours, not clamped). -/
noncomputable def calculate_recency_weight (signal_time reference_time : ℚ) : ℝ :=
  max 0.1 (Real.exp (-RECENCY_DECAY * ((reference_time - signal_time : ℚ) : ℝ) / 24))

/-- `RiskAggregationEngine.calculate_geo_weight`: `1.0` for no tags, else the
maximum multiplier over the tag list. -/
noncomputable def calculate_geo_weight : List GeoSensitivity → ℝ
  | [] => 1.0
  | t :: ts => (ts.map GEO_SENSITIVITY_MULTIPLIERS).foldl max (GEO_SENSITIVITY_MULTIPLIERS t)

/-- Polarity adjustment applied inside `calculate_signal_weight`. -/
noncomputable def polarity_factor : Polarity → ℝ
  | .stabilizing => -0.5
  | .neutral => 0.3
  | .escalatory => 1.0

/-- `RiskAggregationEngine.calculate_signal_weight`:
`severity/5 * recency * geo * polarity`. -/
noncomputable def calculate_signal_weight (signal : ProcessedSignal)
    (reference_time : ℚ) : ℝ :=
  (signal.severity_score : ℝ) / 5
    * calculate_recency_weight signal.timestamp reference_time
    * calculate_geo_weight signal.geo_sensitivity
    * polarity_factor signal.polarity

/-- Running total `layer_contributions[layer]` accumulated by the loop in
`aggregate_layer_scores`: each signal adds its weight once per occurrence of
`layer` in its `risk_layers`. -/
noncomputable def layer_contribution (signals : List ProcessedSignal)
    (reference_time : ℚ) (layer : RiskLayer) : ℝ :=
  (signals.map (fun s =>
    (s.risk_layers.count layer : ℝ) * calculate_signal_weight s reference_time)).sum

/-- Running total `layer_counts[layer]` accumulated by the loop in
`aggregate_layer_scores`. -/
def layer_count (signals : List ProcessedSignal) (layer : RiskLayer) : ℕ :=
  (signals.map (fun s => s.risk_layers.count layer)).sum

/-- `RiskAggregationEngine.aggregate_layer_scores` at one layer:
`min(10.0, contribution / max(1, count) * 10)` when the count is positive,
else `0.0`.  The source applies no lower clamp. -/
noncomputable def aggregate_layer_scores (signals : List ProcessedSignal)
    (reference_time : ℚ) (layer : RiskLayer) : ℝ :=
  if 0 < layer_count signals layer then
    min 10 (layer_contribution signals reference_time layer
      / ((max 1 (layer_count signals layer) : ℕ) : ℝ) * 10)
  else 0

/-- `RiskAggregationEngine.compute_composite_score`: weighted layer sum,
normalised against `sum(weights) * 10`, passed through the sigmoid
`100 / (1 + exp(-k (normalized - midpoint)))`, clamped to `[0, 100]`. -/
noncomputable def compute_composite_score (layer_scores : RiskLayer → ℝ) : ℝ :=
  let weighted_sum :=
    layer_scores RiskLayer.cognitive * LAYER_WEIGHTS RiskLayer.cognitive
      + layer_scores RiskLayer.network * LAYER_WEIGHTS RiskLayer.network
      + layer_scores RiskLayer.physical * LAYER_WEIGHTS RiskLayer.physical
  let max_possible :=
    (LAYER_WEIGHTS RiskLayer.cognitive + LAYER_WEIGHTS RiskLayer.network
      + LAYER_WEIGHTS RiskLayer.physical) * 10
  let normalized := weighted_sum / max_possible * 100
  let sigmoid_score := 100 / (1 + Real.exp (-(0.1) * (normalized - 50)))
  min 100 (max 0 sigmoid_score)

/-- Insertion step of a stable descending sort on weight: a later element is
placed after every earlier element of weight `≥` its own, exactly the order
Python's stable `sort(key=weight, reverse=True)` produces. -/
noncomputable def insert_desc {α : Type} (x : α × ℝ) :
    List (α × ℝ) → List (α × ℝ)
  | [] => [x]
  | y :: ys => if x.2 ≤ y.2 then y :: insert_desc x ys else x :: y :: ys

/-- Stable descending sort by weight (Python `sorted(key=x[1], reverse=True)`
and `list.sort(key=x[1], reverse=True)` are stable). -/
noncomputable def sort_desc {α : Type} (l : List (α × ℝ)) : List (α × ℝ) :=
  l.foldl (fun acc x => insert_desc x acc) []

/-- `RiskAggregationEngine.identify_primary_trigger`: head of the stably
descending-sorted `(layer, score)` items (dict insertion order cognitive,
network, physical), secondaries are the remaining layers with score
`>= primary_score * 0.5`. -/
noncomputable def identify_primary_trigger (layer_scores : RiskLayer → ℝ) :
    String × List String :=
  let sorted_layers := sort_desc
    [(RiskLayer.cognitive, layer_scores RiskLayer.cognitive),
     (RiskLayer.network, layer_scores RiskLayer.network),
     (RiskLayer.physical, layer_scores RiskLayer.physical)]
  match sorted_layers with
  | [] => ("unknown", [])
  | (l, s) :: rest =>
    (l.value, (rest.filter (fun p => s * 0.5 ≤ p.2)).map (fun p => p.1.value))

/-- `RiskAggregationEngine.detect_trend`: average severity of the last 24h
versus the 24-72h band, `rising`/`falling` outside a `±0.5` dead band. -/
def detect_trend (signals : List ProcessedSignal) (reference_time : ℚ) : String :=
  if signals = [] then "stable"
  else
    let cutoff_recent := reference_time - 24
    let cutoff_older := reference_time - 72
    let recent_signals := signals.filter (fun s => cutoff_recent ≤ s.timestamp)
    let older_signals := signals.filter
      (fun s => cutoff_older ≤ s.timestamp ∧ s.timestamp < cutoff_recent)
    if recent_signals = [] then "stable"
    else
      let recent_severity : ℚ :=
        (recent_signals.map (fun s => (s.severity_score : ℚ))).sum / recent_signals.length
      let older_severity : ℚ :=
        if older_signals = [] then recent_severity
        else (older_signals.map (fun s => (s.severity_score : ℚ))).sum / older_signals.length
      let diff := recent_severity - older_severity
      if 1/2 < diff then "rising"
      else if diff < -(1/2) then "falling"
      else "stable"

/-- The Python truthiness test `signal.location or signal.district`:
`None` and the empty string both fall back to the district. -/
def location_or_district (signal : ProcessedSignal) : String :=
  match signal.location with
  | some l => if l = "" then signal.district else l
  | none => signal.district

/-- Sanitised summary dict built for each selected signal. -/
def to_top_signal (signal : ProcessedSignal) : TopSignal :=
  ⟨signal.event_summary, signal.severity_score, signal.timestamp,
    signal.source_type, signal.risk_layers.map RiskLayer.value,
    location_or_district signal⟩

/-- `RiskAggregationEngine.select_top_signals`.  The source calls
`calculate_signal_weight(signal)` without a reference time, so the weights
used for ranking are computed against the wall clock `now`, not against the
caller's reference time. -/
noncomputable def select_top_signals (signals : List ProcessedSignal)
    (count : ℕ) (now : ℚ) : List TopSignal :=
  let weighted_signals := signals.map (fun s => (s, calculate_signal_weight s now))
  let sorted := sort_desc weighted_signals
  (sorted.take count).map (fun p => to_top_signal p.1)

/-- `RiskAggregationEngine.compute_district_risk`: the main pipeline.
`reference_time = none` models an omitted argument, resolved to the wall
clock `now`; `select_top_signals` always ranks against `now` (see above). -/
noncomputable def compute_district_risk (district state : String)
    (signals : List ProcessedSignal) (window_hours : ℤ)
    (reference_time : Option ℚ) (now : ℚ) : DistrictRiskScore :=
  let ref := reference_time.getD now
  let windowed_signals := filter_by_time_window signals window_hours ref
  if windowed_signals = [] then
    ⟨district, state, 0, fun _ => 0, "none", [], "stable", [],
      "BASELINE", "0-29", False, toString window_hours ++ "h", 0, ref⟩
  else
    let layer_scores := aggregate_layer_scores windowed_signals ref
    let composite_score := compute_composite_score layer_scores
    let triggers := identify_primary_trigger layer_scores
    let trend := detect_trend signals ref
    let top_signals := select_top_signals windowed_signals 3 now
    let threshold_label := RiskThreshold.get_label composite_score
    ⟨district, state, composite_score, layer_scores, triggers.1, triggers.2,
      trend, top_signals, threshold_label, RiskThreshold.get_range threshold_label,
      RiskThreshold.MONITORING ≤ composite_score,
      toString window_hours ++ "h", windowed_signals.length, ref⟩

/-- Convenience builder for concrete test signals: fixed district/state, no
location, no geo tags. -/
def mk_signal (summary : String) (t : ℚ) (layers : List RiskLayer)
    (pol : Polarity) (sev : ℕ) : ProcessedSignal :=
  ⟨"Manipur", "Imphal West", none, summary, t, "public_open_source",
    layers, pol, sev, []⟩

/-- Copy of a signal with the severity score replaced. -/
def set_severity (s : ProcessedSignal) (k : ℕ) : ProcessedSignal :=
  ⟨s.state, s.district, s.location, s.event_summary, s.timestamp,
    s.source_type, s.risk_layers, s.polarity, k, s.geo_sensitivity⟩

/-- Copy of a signal with the polarity replaced. -/
def set_polarity (s : ProcessedSignal) (p : Polarity) : ProcessedSignal :=
  ⟨s.state, s.district, s.location, s.event_summary, s.timestamp,
    s.source_type, s.risk_layers, p, s.severity_score, s.geo_sensitivity⟩

/-- Modelled from the spec: the claimed primary-trigger rule, namely the layer
with the maximum score, ties broken by the fixed priority order cognitive,
network, physical.  Stated for comparison with `identify_primary_trigger`. -/
noncomputable def spec_primary (sc sn sp : ℝ) : String :=
  if sn ≤ sc ∧ sp ≤ sc then "cognitive"
  else if sp ≤ sn then "network"
  else "physical"

/-- High-severity old escalatory signal used in the wall-clock example. -/
def c1_sigA : ProcessedSignal :=
  mk_signal "A" (-900) [RiskLayer.physical] Polarity.escalatory 5

/-- Low-severity fresh escalatory signal used in the wall-clock example. -/
def c1_sigB : ProcessedSignal :=
  mk_signal "B" (-1) [RiskLayer.cognitive] Polarity.escalatory 1

/-- Single stabilizing signal at the reference time. -/
def c2_sig : ProcessedSignal :=
  mk_signal "Peace dialogue resolves tension" 0 [RiskLayer.cognitive]
    Polarity.stabilizing 5

/-- Signal timestamped 100 hours after the reference time. -/
def c6_sig : ProcessedSignal :=
  mk_signal "Future clash report" 100 [RiskLayer.physical] Polarity.escalatory 3

/-! ### Basic bounds on the weight components -/

lemma recency_weight_ge (t r : ℚ) : (0.1 : ℝ) ≤ calculate_recency_weight t r :=
  le_max_left _ _

lemma recency_weight_pos (t r : ℚ) : (0 : ℝ) < calculate_recency_weight t r :=
  lt_of_lt_of_le (by norm_num) (recency_weight_ge t r)

lemma exp_neg_le_tenth {y : ℝ} (h : 9 ≤ y) : Real.exp (-y) ≤ 0.1 := by
  have h2 : (10 : ℝ) ≤ Real.exp y := le_trans (by linarith) (Real.add_one_le_exp y)
  rw [Real.exp_neg, show (0.1 : ℝ) = 10⁻¹ by norm_num]
  exact inv_anti₀ (by norm_num) h2

lemma recency_weight_floor {t r : ℚ} (h : (432 : ℚ) ≤ r - t) :
    calculate_recency_weight t r = 0.1 := by
  unfold calculate_recency_weight RECENCY_DECAY
  have hd : (432 : ℝ) ≤ ((r - t : ℚ) : ℝ) := by exact_mod_cast h
  have he : -(0.5 : ℝ) * ((r - t : ℚ) : ℝ) / 24 = -(((r - t : ℚ) : ℝ) / 48) := by ring
  rw [he]
  exact max_eq_left (exp_neg_le_tenth (by linarith))

lemma recency_weight_eq_exp {t r : ℚ} (h : ((r - t : ℚ) : ℝ) ≤ 43) :
    calculate_recency_weight t r = Real.exp (-(((r - t : ℚ) : ℝ) / 48)) := by
  unfold calculate_recency_weight RECENCY_DECAY
  have he : -(0.5 : ℝ) * ((r - t : ℚ) : ℝ) / 24 = -(((r - t : ℚ) : ℝ) / 48) := by ring
  rw [he]
  have hexp := Real.add_one_le_exp (-(((r - t : ℚ) : ℝ) / 48))
  exact max_eq_right (by linarith)

lemma geo_multiplier_ge_one (g : GeoSensitivity) :
    (1 : ℝ) ≤ GEO_SENSITIVITY_MULTIPLIERS g := by
  cases g <;> norm_num [GEO_SENSITIVITY_MULTIPLIERS]

lemma le_foldl_max (b : ℝ) (l : List ℝ) : b ≤ l.foldl max b := by
  induction l generalizing b with
  | nil => exact le_rfl
  | cons a l ih => exact le_trans (le_max_left b a) (ih (max b a))

lemma geo_weight_ge_one (tags : List GeoSensitivity) :
    (1 : ℝ) ≤ calculate_geo_weight tags := by
  cases tags with
  | nil => norm_num [calculate_geo_weight]
  | cons t ts =>
    unfold calculate_geo_weight
    exact le_trans (geo_multiplier_ge_one t) (le_foldl_max _ _)

lemma geo_weight_pos (tags : List GeoSensitivity) :
    (0 : ℝ) < calculate_geo_weight tags :=
  lt_of_lt_of_le one_pos (geo_weight_ge_one tags)

lemma signal_weight_eq (s : ProcessedSignal) (r : ℚ) :
    calculate_signal_weight s r =
      (s.severity_score : ℝ) / 5 *
        (calculate_recency_weight s.timestamp r * calculate_geo_weight s.geo_sensitivity
          * polarity_factor s.polarity) := by
  unfold calculate_signal_weight
  ring

lemma signal_weight_nonneg_of_escalatory {s : ProcessedSignal}
    (h : s.polarity = Polarity.escalatory) (r : ℚ) :
    0 ≤ calculate_signal_weight s r := by
  rw [signal_weight_eq, h]
  simp only [polarity_factor, mul_one]
  have h1 := recency_weight_pos s.timestamp r
  have h2 := geo_weight_pos s.geo_sensitivity
  positivity

/-! ### C3: clock skew and the recency floor -/

/-- C3 counterexample: a signal timestamped 24 hours after the reference time
gets recency weight `exp(0.5) > 1`; the source does not clamp elapsed hours
at 0, so the claimed bound `weight ≤ 1` fails. -/
theorem C3_counterexample_future_weight_exceeds_one :
    1 < calculate_recency_weight 24 0 := by
  unfold calculate_recency_weight RECENCY_DECAY
  have h : (1 : ℝ) < Real.exp (-(0.5 : ℝ) * (((0 : ℚ) - 24 : ℚ) : ℝ) / 24) := by
    rw [Real.one_lt_exp_iff]
    push_cast
    norm_num
  exact lt_of_lt_of_le h (le_max_right _ _)

/-- C3 (amended): `calculate_recency_weight` never clamps elapsed hours, so a
signal timestamped after the reference time gets weight strictly above 1;
for every signal the weight is at least 0.1, hence positive and never zero. -/
theorem C3_recency_weight_amended (t r : ℚ) :
    (0.1 : ℝ) ≤ calculate_recency_weight t r ∧
    0 < calculate_recency_weight t r ∧
    (r < t → 1 < calculate_recency_weight t r) := by
  refine ⟨recency_weight_ge t r, recency_weight_pos t r, fun hrt => ?_⟩
  unfold calculate_recency_weight RECENCY_DECAY
  have hd : ((r - t : ℚ) : ℝ) < 0 := by
    have : (r - t : ℚ) < 0 := sub_neg.mpr hrt
    exact_mod_cast this
  have h : (1 : ℝ) < Real.exp (-(0.5 : ℝ) * ((r - t : ℚ) : ℝ) / 24) := by
    rw [Real.one_lt_exp_iff]
    nlinarith
  exact lt_of_lt_of_le h (le_max_right _ _)

/-- Witness for C3 at `t = 24`, `r = 0`. -/
theorem C3_recency_weight_amended_witness :
    (0.1 : ℝ) ≤ calculate_recency_weight 24 0 ∧ 1 < calculate_recency_weight 24 0 :=
  ⟨(C3_recency_weight_amended 24 0).1,
   (C3_recency_weight_amended 24 0).2.2 (by norm_num)⟩

/-! ### C2: the missing lower clamp on layer scores -/

lemma recency_weight_same_time (r : ℚ) : calculate_recency_weight r r = 1 := by
  unfold calculate_recency_weight RECENCY_DECAY
  have he : -(0.5 : ℝ) * ((r - r : ℚ) : ℝ) / 24 = 0 := by push_cast; ring
  rw [he, Real.exp_zero]
  exact max_eq_right (by norm_num)

/-- C2 is violated by the source: `aggregate_layer_scores` clamps only from
above (`min(10.0, raw_score)`), so a single stabilizing signal of severity 5
at the reference time drives the cognitive layer score to `-5`, contradicting
the claimed clamp to `[0, 10]` (and the source's own `0-10 scale` comments). -/
theorem C2_negative_layer_score :
    aggregate_layer_scores [c2_sig] 0 RiskLayer.cognitive = -5 := by
  have hw : calculate_signal_weight c2_sig 0 = -(1/2) := by
    rw [signal_weight_eq]
    show (5 : ℕ) / (5 : ℝ) * (calculate_recency_weight 0 0 * calculate_geo_weight []
      * polarity_factor Polarity.stabilizing) = -(1/2)
    rw [recency_weight_same_time]
    simp only [calculate_geo_weight, polarity_factor]
    norm_num
  have hc : layer_count [c2_sig] RiskLayer.cognitive = 1 := by
    simp [layer_count, c2_sig, mk_signal]
  have hcontrib : layer_contribution [c2_sig] 0 RiskLayer.cognitive = -(1/2) := by
    unfold layer_contribution
    rw [List.map_cons, List.map_nil, List.sum_cons, List.sum_nil, hw]
    have hl : c2_sig.risk_layers = [RiskLayer.cognitive] := rfl
    rw [hl, show ([RiskLayer.cognitive].count RiskLayer.cognitive) = 1 from by decide]
    norm_num
  unfold aggregate_layer_scores
  rw [hc, hcontrib, if_pos Nat.one_pos]
  norm_num [min_eq_right]

/-! ### C5: threshold classification bands -/

/-- C5: threshold classification maps `[0,30)` to BASELINE, `[30,60)` to
MONITORING, `[60,75)` to PREVENTIVE_READINESS, `[75,90)` to SENIOR_REVIEW and
`[90,100]` to CRITICAL; in particular 30.0 is MONITORING and 29.999 is
BASELINE. -/
theorem C5_threshold_partition :
    (∀ x : ℝ, 0 ≤ x → x < 30 → RiskThreshold.get_label x = "BASELINE") ∧
    (∀ x : ℝ, 30 ≤ x → x < 60 → RiskThreshold.get_label x = "MONITORING") ∧
    (∀ x : ℝ, 60 ≤ x → x < 75 → RiskThreshold.get_label x = "PREVENTIVE_READINESS") ∧
    (∀ x : ℝ, 75 ≤ x → x < 90 → RiskThreshold.get_label x = "SENIOR_REVIEW") ∧
    (∀ x : ℝ, 90 ≤ x → x ≤ 100 → RiskThreshold.get_label x = "CRITICAL") ∧
    RiskThreshold.get_label 30 = "MONITORING" ∧
    RiskThreshold.get_label 29.999 = "BASELINE" := by
  have hb : ∀ x : ℝ, x < 30 → RiskThreshold.get_label x = "BASELINE" := by
    intro x h30
    unfold RiskThreshold.get_label RiskThreshold.CRITICAL RiskThreshold.SENIOR_REVIEW
      RiskThreshold.PREVENTIVE RiskThreshold.MONITORING
    rw [if_neg (by linarith), if_neg (by linarith), if_neg (by linarith),
      if_neg (by linarith)]
  have hm : ∀ x : ℝ, 30 ≤ x → x < 60 → RiskThreshold.get_label x = "MONITORING" := by
    intro x h30 h60
    unfold RiskThreshold.get_label RiskThreshold.CRITICAL RiskThreshold.SENIOR_REVIEW
      RiskThreshold.PREVENTIVE RiskThreshold.MONITORING
    rw [if_neg (by linarith), if_neg (by linarith), if_neg (by linarith),
      if_pos (by linarith)]
  refine ⟨fun x _ h => hb x h, hm, ?_, ?_, ?_, hm 30 le_rfl (by norm_num),
    hb 29.999 (by norm_num)⟩
  · intro x h60 h75
    unfold RiskThreshold.get_label RiskThreshold.CRITICAL RiskThreshold.SENIOR_REVIEW
      RiskThreshold.PREVENTIVE RiskThreshold.MONITORING
    rw [if_neg (by linarith), if_neg (by linarith), if_pos (by linarith)]
  · intro x h75 h90
    unfold RiskThreshold.get_label RiskThreshold.CRITICAL RiskThreshold.SENIOR_REVIEW
      RiskThreshold.PREVENTIVE RiskThreshold.MONITORING
    rw [if_neg (by linarith), if_pos (by linarith)]
  · intro x h90 _
    unfold RiskThreshold.get_label RiskThreshold.CRITICAL RiskThreshold.SENIOR_REVIEW
      RiskThreshold.PREVENTIVE RiskThreshold.MONITORING
    rw [if_pos (by linarith)]

/-- Witness for C5 at one point in each band. -/
theorem C5_threshold_partition_witness :
    RiskThreshold.get_label 0 = "BASELINE" ∧
    RiskThreshold.get_label 30 = "MONITORING" ∧
    RiskThreshold.get_label 60 = "PREVENTIVE_READINESS" ∧
    RiskThreshold.get_label 75 = "SENIOR_REVIEW" ∧
    RiskThreshold.get_label 90 = "CRITICAL" :=
  ⟨C5_threshold_partition.1 0 (by norm_num) (by norm_num),
   C5_threshold_partition.2.1 30 (by norm_num) (by norm_num),
   C5_threshold_partition.2.2.1 60 (by norm_num) (by norm_num),
   C5_threshold_partition.2.2.2.1 75 (by norm_num) (by norm_num),
   C5_threshold_partition.2.2.2.2.1 90 (by norm_num) (by norm_num)⟩

/-! ### Branch lemmas for the main pipeline -/

lemma filter_singleton_of_le {s : ProcessedSignal} {w : ℤ} {r : ℚ}
    (h : r - w ≤ s.timestamp) : filter_by_time_window [s] w r = [s] := by
  simp only [filter_by_time_window, List.filter_eq_self, List.mem_singleton,
    decide_eq_true_eq, forall_eq]
  exact h

lemma filter_singleton_ne_nil {s : ProcessedSignal} {w : ℤ} {r : ℚ}
    (h : r - w ≤ s.timestamp) : filter_by_time_window [s] w r ≠ [] := by
  rw [filter_singleton_of_le h]
  exact List.cons_ne_nil _ _

lemma compute_district_risk_empty {district state : String}
    {signals : List ProcessedSignal} {window_hours : ℤ} {ref now : ℚ}
    (h : filter_by_time_window signals window_hours ref = []) :
    compute_district_risk district state signals window_hours (some ref) now =
      ⟨district, state, 0, fun _ => 0, "none", [], "stable", [],
        "BASELINE", "0-29", False, toString window_hours ++ "h", 0, ref⟩ := by
  simp only [compute_district_risk, Option.getD_some]
  rw [if_pos h]

lemma compute_district_risk_nonempty {district state : String}
    {signals : List ProcessedSignal} {window_hours : ℤ} {ref now : ℚ}
    (h : filter_by_time_window signals window_hours ref ≠ []) :
    compute_district_risk district state signals window_hours (some ref) now =
      ⟨district, state,
        compute_composite_score
          (aggregate_layer_scores (filter_by_time_window signals window_hours ref) ref),
        aggregate_layer_scores (filter_by_time_window signals window_hours ref) ref,
        (identify_primary_trigger
          (aggregate_layer_scores (filter_by_time_window signals window_hours ref) ref)).1,
        (identify_primary_trigger
          (aggregate_layer_scores (filter_by_time_window signals window_hours ref) ref)).2,
        detect_trend signals ref,
        select_top_signals (filter_by_time_window signals window_hours ref) 3 now,
        RiskThreshold.get_label (compute_composite_score
          (aggregate_layer_scores (filter_by_time_window signals window_hours ref) ref)),
        RiskThreshold.get_range (RiskThreshold.get_label (compute_composite_score
          (aggregate_layer_scores (filter_by_time_window signals window_hours ref) ref))),
        RiskThreshold.MONITORING ≤ compute_composite_score
          (aggregate_layer_scores (filter_by_time_window signals window_hours ref) ref),
        toString window_hours ++ "h",
        (filter_by_time_window signals window_hours ref).length, ref⟩ := by
  simp only [compute_district_risk, Option.getD_some]
  rw [if_neg h]

/-! ### C4: empty window gives the deterministic baseline result -/

/-- C4: when the time-window filter leaves no signals, `compute_district_risk`
returns (never raises) the baseline result: composite 0.0, all layer scores
0.0, label BASELINE, trend stable, zero signal count and an empty (not null)
top-signal list. -/
theorem C4_empty_window_baseline (district state : String)
    (signals : List ProcessedSignal) (window_hours : ℤ) (ref now : ℚ)
    (h : filter_by_time_window signals window_hours ref = []) :
    (compute_district_risk district state signals window_hours (some ref) now).composite_score = 0 ∧
    (∀ l, (compute_district_risk district state signals window_hours (some ref) now).layer_scores l = 0) ∧
    (compute_district_risk district state signals window_hours (some ref) now).threshold_label = "BASELINE" ∧
    (compute_district_risk district state signals window_hours (some ref) now).trend = "stable" ∧
    (compute_district_risk district state signals window_hours (some ref) now).signal_count = 0 ∧
    (compute_district_risk district state signals window_hours (some ref) now).top_signals = [] := by
  rw [compute_district_risk_empty h]
  exact ⟨rfl, fun l => rfl, rfl, rfl, rfl, rfl⟩

/-- Witness for C4 on the empty signal list. -/
theorem C4_empty_window_baseline_witness :
    filter_by_time_window [] 24 0 = [] ∧
    (compute_district_risk "Imphal West" "Manipur" [] 24 (some 0) 0).composite_score = 0 ∧
    (compute_district_risk "Imphal West" "Manipur" [] 24 (some 0) 0).trend = "stable" ∧
    (compute_district_risk "Imphal West" "Manipur" [] 24 (some 0) 0).top_signals = [] :=
  ⟨rfl,
   (C4_empty_window_baseline "Imphal West" "Manipur" [] 24 0 0 rfl).1,
   (C4_empty_window_baseline "Imphal West" "Manipur" [] 24 0 0 rfl).2.2.2.1,
   (C4_empty_window_baseline "Imphal West" "Manipur" [] 24 0 0 rfl).2.2.2.2.2⟩

/-! ### C6: the window filter has no upper bound -/

/-- C6 counterexample: a signal timestamped 100 hours after the reference time
survives `filter_by_time_window` and is counted by the windowed computation
of `compute_district_risk`, so that computation is not restricted to the
closed interval `[reference_time - window_hours, reference_time]` as
claimed. -/
theorem C6_counterexample_future_signal_in_window :
    c6_sig.timestamp > 0 ∧ filter_by_time_window [c6_sig] 24 0 = [c6_sig] ∧
    (compute_district_risk "Imphal West" "Manipur" [c6_sig] 24 (some 0) 0).signal_count = 1 := by
  have hf : filter_by_time_window [c6_sig] 24 0 = [c6_sig] :=
    filter_singleton_of_le (by norm_num [c6_sig, mk_signal])
  refine ⟨by norm_num [c6_sig, mk_signal], hf, ?_⟩
  rw [compute_district_risk_nonempty (by rw [hf]; exact List.cons_ne_nil _ _)]
  dsimp only
  rw [hf]
  rfl

/-- C6 (amended): the window filter keeps exactly the signals with
`timestamp ≥ reference_time - window_hours` (lower bound only; signals after
the reference time are retained), and on the non-empty-window path
`compute_district_risk` feeds the full unfiltered signal list to
`detect_trend`. -/
theorem C6_window_filter_amended (signals : List ProcessedSignal)
    (window_hours : ℤ) (ref : ℚ) (district state : String) (now : ℚ) :
    (∀ s : ProcessedSignal, s ∈ filter_by_time_window signals window_hours ref ↔
      s ∈ signals ∧ ref - window_hours ≤ s.timestamp) ∧
    (filter_by_time_window signals window_hours ref ≠ [] →
      (compute_district_risk district state signals window_hours (some ref) now).trend =
        detect_trend signals ref) := by
  constructor
  · intro s
    simp [filter_by_time_window, List.mem_filter]
  · intro h
    rw [compute_district_risk_nonempty h]

/-- Witness for C6 on a single in-window signal. -/
theorem C6_window_filter_amended_witness :
    (mk_signal "w" 0 [RiskLayer.cognitive] Polarity.escalatory 1 ∈
        filter_by_time_window
          [mk_signal "w" 0 [RiskLayer.cognitive] Polarity.escalatory 1] 24 0 ↔
      mk_signal "w" 0 [RiskLayer.cognitive] Polarity.escalatory 1 ∈
        [mk_signal "w" 0 [RiskLayer.cognitive] Polarity.escalatory 1] ∧
        (0 : ℚ) - 24 ≤ (mk_signal "w" 0 [RiskLayer.cognitive] Polarity.escalatory 1).timestamp) ∧
    (compute_district_risk "Imphal West" "Manipur"
        [mk_signal "w" 0 [RiskLayer.cognitive] Polarity.escalatory 1] 24 (some 0) 0).trend =
      detect_trend [mk_signal "w" 0 [RiskLayer.cognitive] Polarity.escalatory 1] 0 :=
  ⟨(C6_window_filter_amended _ 24 0 "Imphal West" "Manipur" 0).1 _,
   (C6_window_filter_amended _ 24 0 "Imphal West" "Manipur" 0).2
     (filter_singleton_ne_nil (by norm_num [mk_signal]))⟩

/-! ### C10: the sigmoid keeps non-empty scores strictly inside (0, 100) -/

lemma sigmoid_bounds (x : ℝ) :
    0 < min 100 (max 0 (100 / (1 + Real.exp x))) ∧
    min 100 (max 0 (100 / (1 + Real.exp x))) < 100 := by
  have he := Real.exp_pos x
  have hs : 0 < 100 / (1 + Real.exp x) := by positivity
  have h100 : 100 / (1 + Real.exp x) < 100 := div_lt_self (by norm_num) (by linarith)
  exact ⟨lt_min (by norm_num) (lt_max_iff.mpr (Or.inr hs)),
    lt_of_le_of_lt (min_le_right _ _) (max_lt (by norm_num) h100)⟩

lemma compute_composite_pos (L : RiskLayer → ℝ) : 0 < compute_composite_score L := by
  simp only [compute_composite_score]
  exact (sigmoid_bounds _).1

lemma compute_composite_lt (L : RiskLayer → ℝ) : compute_composite_score L < 100 := by
  simp only [compute_composite_score]
  exact (sigmoid_bounds _).2

/-- C10: on every non-empty windowed signal set the composite score is
strictly between 0 and 100: the logistic transform never attains the clamp
bounds, an exact 0.0 score occurs only on the empty-window path, and an
all-stabilizing windowed set still scores strictly positive. -/
theorem C10_composite_strictly_between (district state : String)
    (signals : List ProcessedSignal) (window_hours : ℤ) (ref now : ℚ)
    (h : filter_by_time_window signals window_hours ref ≠ []) :
    0 < (compute_district_risk district state signals window_hours (some ref) now).composite_score ∧
    (compute_district_risk district state signals window_hours (some ref) now).composite_score < 100 := by
  rw [compute_district_risk_nonempty h]
  exact ⟨compute_composite_pos _, compute_composite_lt _⟩

/-- Witness for C10 on a window containing a single stabilizing signal. -/
theorem C10_composite_strictly_between_witness :
    filter_by_time_window
      [mk_signal "peace restored" 0 [RiskLayer.cognitive] Polarity.stabilizing 4] 24 0 ≠ [] ∧
    0 < (compute_district_risk "Imphal West" "Manipur"
      [mk_signal "peace restored" 0 [RiskLayer.cognitive] Polarity.stabilizing 4]
      24 (some 0) 0).composite_score :=
  ⟨filter_singleton_ne_nil (by norm_num [mk_signal]),
   (C10_composite_strictly_between "Imphal West" "Manipur"
     [mk_signal "peace restored" 0 [RiskLayer.cognitive] Polarity.stabilizing 4]
     24 0 0 (filter_singleton_ne_nil (by norm_num [mk_signal]))).1⟩

/-! ### C9: primary and secondary trigger identification -/

lemma value_injective {l₁ l₂ : RiskLayer} (h : l₁.value = l₂.value) : l₁ = l₂ := by
  cases l₁ <;> cases l₂ <;> simp_all [RiskLayer.value]

lemma insert_desc_nil {α : Type} (x : α × ℝ) : insert_desc x [] = [x] := rfl

lemma insert_desc_cons {α : Type} (x y : α × ℝ) (ys : List (α × ℝ)) :
    insert_desc x (y :: ys) = if x.2 ≤ y.2 then y :: insert_desc x ys else x :: y :: ys := rfl

lemma sort_desc_three {α : Type} (a b c : α × ℝ) :
    sort_desc [a, b, c] = insert_desc c (insert_desc b [a]) := rfl

lemma mem_map_value_filter_pair (u v : RiskLayer × ℝ) (s : ℝ) (l : RiskLayer) :
    l.value ∈ (([u, v].filter (fun q => s * 0.5 ≤ q.2)).map (fun q => q.1.value)) ↔
      ((l = u.1 ∧ s * 0.5 ≤ u.2) ∨ (l = v.1 ∧ s * 0.5 ≤ v.2)) := by
  simp only [List.mem_map, List.mem_filter, List.mem_cons, List.mem_singleton,
    List.not_mem_nil, or_false, decide_eq_true_eq]
  constructor
  · rintro ⟨q, ⟨hq | hq, hw⟩, hv⟩
    · subst hq
      exact Or.inl ⟨(value_injective hv).symm, hw⟩
    · subst hq
      exact Or.inr ⟨(value_injective hv).symm, hw⟩
  · rintro (⟨he, hw⟩ | ⟨he, hw⟩)
    · exact ⟨u, ⟨Or.inl rfl, hw⟩, by rw [he]⟩
    · exact ⟨v, ⟨Or.inr rfl, hw⟩, by rw [he]⟩

lemma max3_first {a b c : ℝ} (h1 : b ≤ a) (h2 : c ≤ a) : max a (max b c) = a :=
  max_eq_left (max_le h1 h2)

lemma max3_second {a b c : ℝ} (h1 : a ≤ b) (h2 : c ≤ b) : max a (max b c) = b := by
  rw [max_eq_left h2]
  exact max_eq_right h1

lemma max3_third {a b c : ℝ} (h1 : a ≤ c) (h2 : b ≤ c) : max a (max b c) = c := by
  rw [max_eq_right h2]
  exact max_eq_right h1

lemma identify_primary_trigger_spec (L : RiskLayer → ℝ) :
    (identify_primary_trigger L).1 =
      spec_primary (L RiskLayer.cognitive) (L RiskLayer.network) (L RiskLayer.physical) ∧
    (∀ l : RiskLayer, l.value ∈ (identify_primary_trigger L).2 ↔
      (l.value ≠ (identify_primary_trigger L).1 ∧
        max (L RiskLayer.cognitive) (max (L RiskLayer.network) (L RiskLayer.physical)) * 0.5
          ≤ L l)) := by
  by_cases h1 : L RiskLayer.network ≤ L RiskLayer.cognitive
  · have e2 : insert_desc (RiskLayer.network, L RiskLayer.network)
        [(RiskLayer.cognitive, L RiskLayer.cognitive)] =
        [(RiskLayer.cognitive, L RiskLayer.cognitive),
         (RiskLayer.network, L RiskLayer.network)] := by
      rw [insert_desc_cons, if_pos h1, insert_desc_nil]
    by_cases h2 : L RiskLayer.physical ≤ L RiskLayer.cognitive
    · by_cases h3 : L RiskLayer.physical ≤ L RiskLayer.network
      · have hid : identify_primary_trigger L = ("cognitive",
            ([(RiskLayer.network, L RiskLayer.network),
              (RiskLayer.physical, L RiskLayer.physical)].filter
              (fun q => L RiskLayer.cognitive * 0.5 ≤ q.2)).map (fun q => q.1.value)) := by
          unfold identify_primary_trigger
          rw [sort_desc_three, e2, insert_desc_cons, if_pos h2, insert_desc_cons,
            if_pos h3, insert_desc_nil]
          rfl
        constructor
        · rw [hid]
          unfold spec_primary
          rw [if_pos ⟨h1, h2⟩]
        · intro l
          rw [hid]
          dsimp only
          rw [mem_map_value_filter_pair, max3_first h1 h2]
          rcases l <;> simp [RiskLayer.value]
      · have hid : identify_primary_trigger L = ("cognitive",
            ([(RiskLayer.physical, L RiskLayer.physical),
              (RiskLayer.network, L RiskLayer.network)].filter
              (fun q => L RiskLayer.cognitive * 0.5 ≤ q.2)).map (fun q => q.1.value)) := by
          unfold identify_primary_trigger
          rw [sort_desc_three, e2, insert_desc_cons, if_pos h2, insert_desc_cons,
            if_neg h3]
          rfl
        constructor
        · rw [hid]
          unfold spec_primary
          rw [if_pos ⟨h1, h2⟩]
        · intro l
          rw [hid]
          dsimp only
          rw [mem_map_value_filter_pair, max3_first h1 h2]
          rcases l <;> simp [RiskLayer.value]
    · have hid : identify_primary_trigger L = ("physical",
          ([(RiskLayer.cognitive, L RiskLayer.cognitive),
            (RiskLayer.network, L RiskLayer.network)].filter
            (fun q => L RiskLayer.physical * 0.5 ≤ q.2)).map (fun q => q.1.value)) := by
        unfold identify_primary_trigger
        rw [sort_desc_three, e2, insert_desc_cons, if_neg h2]
        rfl
      have hcp : L RiskLayer.cognitive ≤ L RiskLayer.physical := le_of_lt (not_le.mp h2)
      constructor
      · rw [hid]
        unfold spec_primary
        rw [if_neg (by rintro ⟨-, hb⟩; exact h2 hb),
          if_neg (fun hq => h2 (le_trans hq h1))]
      · intro l
        rw [hid]
        dsimp only
        rw [mem_map_value_filter_pair, max3_third hcp (le_trans h1 hcp)]
        rcases l <;> simp [RiskLayer.value]
  · have e2 : insert_desc (RiskLayer.network, L RiskLayer.network)
        [(RiskLayer.cognitive, L RiskLayer.cognitive)] =
        [(RiskLayer.network, L RiskLayer.network),
         (RiskLayer.cognitive, L RiskLayer.cognitive)] := by
      rw [insert_desc_cons, if_neg h1]
    have hcn : L RiskLayer.cognitive ≤ L RiskLayer.network := le_of_lt (not_le.mp h1)
    by_cases h2 : L RiskLayer.physical ≤ L RiskLayer.network
    · by_cases h3 : L RiskLayer.physical ≤ L RiskLayer.cognitive
      · have hid : identify_primary_trigger L = ("network",
            ([(RiskLayer.cognitive, L RiskLayer.cognitive),
              (RiskLayer.physical, L RiskLayer.physical)].filter
              (fun q => L RiskLayer.network * 0.5 ≤ q.2)).map (fun q => q.1.value)) := by
          unfold identify_primary_trigger
          rw [sort_desc_three, e2, insert_desc_cons, if_pos h2, insert_desc_cons,
            if_pos h3, insert_desc_nil]
          rfl
        constructor
        · rw [hid]
          unfold spec_primary
          rw [if_neg (by rintro ⟨ha, -⟩; exact h1 ha), if_pos h2]
        · intro l
          rw [hid]
          dsimp only
          rw [mem_map_value_filter_pair, max3_second hcn h2]
          rcases l <;> simp [RiskLayer.value]
      · have hid : identify_primary_trigger L = ("network",
            ([(RiskLayer.physical, L RiskLayer.physical),
              (RiskLayer.cognitive, L RiskLayer.cognitive)].filter
              (fun q => L RiskLayer.network * 0.5 ≤ q.2)).map (fun q => q.1.value)) := by
          unfold identify_primary_trigger
          rw [sort_desc_three, e2, insert_desc_cons, if_pos h2, insert_desc_cons,
            if_neg h3]
          rfl
        constructor
        · rw [hid]
          unfold spec_primary
          rw [if_neg (by rintro ⟨ha, -⟩; exact h1 ha), if_pos h2]
        · intro l
          rw [hid]
          dsimp only
          rw [mem_map_value_filter_pair, max3_second hcn h2]
          rcases l <;> simp [RiskLayer.value]
    · have hid : identify_primary_trigger L = ("physical",
          ([(RiskLayer.network, L RiskLayer.network),
            (RiskLayer.cognitive, L RiskLayer.cognitive)].filter
            (fun q => L RiskLayer.physical * 0.5 ≤ q.2)).map (fun q => q.1.value)) := by
        unfold identify_primary_trigger
        rw [sort_desc_three, e2, insert_desc_cons, if_neg h2]
        rfl
      have hnp : L RiskLayer.network ≤ L RiskLayer.physical := le_of_lt (not_le.mp h2)
      constructor
      · rw [hid]
        unfold spec_primary
        rw [if_neg (by rintro ⟨ha, -⟩; exact h1 ha), if_neg h2]
      · intro l
        rw [hid]
        dsimp only
        rw [mem_map_value_filter_pair, max3_third (le_trans hcn hnp) hnp]
        rcases l <;> simp [RiskLayer.value]

/-- C9: for every layer-scores map produced by `aggregate_layer_scores`,
`identify_primary_trigger` returns as primary the layer with the maximum
score (ties broken by the fixed priority cognitive, network, physical, via
the stable descending sort over the dict's insertion order), and as
secondary exactly the other layers whose score is at least 50% of the
primary's score. -/
theorem C9_primary_and_secondary_triggers (signals : List ProcessedSignal) (ref : ℚ) :
    (identify_primary_trigger (aggregate_layer_scores signals ref)).1 =
      spec_primary (aggregate_layer_scores signals ref RiskLayer.cognitive)
        (aggregate_layer_scores signals ref RiskLayer.network)
        (aggregate_layer_scores signals ref RiskLayer.physical) ∧
    (∀ l : RiskLayer,
      l.value ∈ (identify_primary_trigger (aggregate_layer_scores signals ref)).2 ↔
        (l.value ≠ (identify_primary_trigger (aggregate_layer_scores signals ref)).1 ∧
          max (aggregate_layer_scores signals ref RiskLayer.cognitive)
            (max (aggregate_layer_scores signals ref RiskLayer.network)
              (aggregate_layer_scores signals ref RiskLayer.physical)) * 0.5
            ≤ aggregate_layer_scores signals ref l)) :=
  identify_primary_trigger_spec (aggregate_layer_scores signals ref)

/-! ### C7 and C8: monotonicity of the composite score -/

lemma signal_weight_mono_severity {s : ProcessedSignal}
    (h : s.polarity = Polarity.escalatory) {a b : ℕ} (hab : a ≤ b) (r : ℚ) :
    calculate_signal_weight (set_severity s a) r ≤
      calculate_signal_weight (set_severity s b) r := by
  rw [signal_weight_eq, signal_weight_eq]
  simp only [set_severity, h, polarity_factor, mul_one]
  have h1 := recency_weight_pos s.timestamp r
  have h2 := geo_weight_pos s.geo_sensitivity
  have hc : (a : ℝ) ≤ (b : ℝ) := Nat.cast_le.mpr hab
  nlinarith [mul_nonneg (sub_nonneg.mpr hc) (le_of_lt (mul_pos h1 h2))]

lemma signal_weight_stabilizing_le {s : ProcessedSignal}
    (h : s.polarity = Polarity.escalatory) (r : ℚ) :
    calculate_signal_weight (set_polarity s Polarity.stabilizing) r ≤
      calculate_signal_weight s r := by
  rw [signal_weight_eq, signal_weight_eq]
  simp only [set_polarity, h, polarity_factor, mul_one]
  have h1 := recency_weight_pos s.timestamp r
  have h2 := geo_weight_pos s.geo_sensitivity
  have hsev : (0 : ℝ) ≤ (s.severity_score : ℝ) := Nat.cast_nonneg _
  nlinarith [mul_pos h1 h2, mul_nonneg hsev (le_of_lt (mul_pos h1 h2))]

lemma layer_count_append (pre post : List ProcessedSignal) (s : ProcessedSignal)
    (l : RiskLayer) :
    layer_count (pre ++ s :: post) l =
      layer_count pre l + s.risk_layers.count l + layer_count post l := by
  simp [layer_count, List.map_append, List.sum_append]
  omega

lemma layer_contribution_append (pre post : List ProcessedSignal) (s : ProcessedSignal)
    (r : ℚ) (l : RiskLayer) :
    layer_contribution (pre ++ s :: post) r l =
      layer_contribution pre r l
        + (s.risk_layers.count l : ℝ) * calculate_signal_weight s r
        + layer_contribution post r l := by
  simp [layer_contribution, List.map_append, List.sum_append]
  ring

lemma aggregate_mono_replace (pre post : List ProcessedSignal) (s s' : ProcessedSignal)
    (hl : s'.risk_layers = s.risk_layers) (r : ℚ)
    (hw : calculate_signal_weight s r ≤ calculate_signal_weight s' r) (l : RiskLayer) :
    aggregate_layer_scores (pre ++ s :: post) r l ≤
      aggregate_layer_scores (pre ++ s' :: post) r l := by
  have hcount : layer_count (pre ++ s' :: post) l = layer_count (pre ++ s :: post) l := by
    rw [layer_count_append, layer_count_append, hl]
  unfold aggregate_layer_scores
  rw [hcount]
  by_cases hc : 0 < layer_count (pre ++ s :: post) l
  · rw [if_pos hc, if_pos hc]
    apply min_le_min le_rfl
    have hcontrib : layer_contribution (pre ++ s :: post) r l ≤
        layer_contribution (pre ++ s' :: post) r l := by
      rw [layer_contribution_append, layer_contribution_append, hl]
      have hcnt : (0 : ℝ) ≤ (s.risk_layers.count l : ℝ) := Nat.cast_nonneg _
      have := mul_le_mul_of_nonneg_left hw hcnt
      linarith
    have hk : (0 : ℝ) < ((max 1 (layer_count (pre ++ s :: post) l) : ℕ) : ℝ) := by
      have h01 : 0 < max 1 (layer_count (pre ++ s :: post) l) :=
        lt_of_lt_of_le Nat.one_pos (le_max_left _ _)
      exact_mod_cast h01
    have h10k : (0 : ℝ) ≤ 10 / ((max 1 (layer_count (pre ++ s :: post) l) : ℕ) : ℝ) := by
      positivity
    calc layer_contribution (pre ++ s :: post) r l
          / ((max 1 (layer_count (pre ++ s :: post) l) : ℕ) : ℝ) * 10
        = layer_contribution (pre ++ s :: post) r l
          * (10 / ((max 1 (layer_count (pre ++ s :: post) l) : ℕ) : ℝ)) := by ring
      _ ≤ layer_contribution (pre ++ s' :: post) r l
          * (10 / ((max 1 (layer_count (pre ++ s :: post) l) : ℕ) : ℝ)) :=
        mul_le_mul_of_nonneg_right hcontrib h10k
      _ = layer_contribution (pre ++ s' :: post) r l
          / ((max 1 (layer_count (pre ++ s :: post) l) : ℕ) : ℝ) * 10 := by ring
  · rw [if_neg hc, if_neg hc]

lemma sigmoid_mono {x y : ℝ} (hxy : x ≤ y) :
    min 100 (max 0 (100 / (1 + Real.exp (-(0.1) * (x - 50))))) ≤
    min 100 (max 0 (100 / (1 + Real.exp (-(0.1) * (y - 50))))) := by
  apply min_le_min le_rfl
  apply max_le_max le_rfl
  have he : Real.exp (-(0.1) * (y - 50)) ≤ Real.exp (-(0.1) * (x - 50)) :=
    Real.exp_le_exp.mpr (by linarith)
  have hpy : 0 < 1 + Real.exp (-(0.1) * (y - 50)) := by positivity
  exact div_le_div_of_nonneg_left (by norm_num) hpy (by linarith)

lemma compute_composite_mono {L L' : RiskLayer → ℝ} (h : ∀ l, L l ≤ L' l) :
    compute_composite_score L ≤ compute_composite_score L' := by
  simp only [compute_composite_score, LAYER_WEIGHTS]
  apply sigmoid_mono
  have h1 := h RiskLayer.cognitive
  have h2 := h RiskLayer.network
  have h3 := h RiskLayer.physical
  have hsum : L RiskLayer.cognitive + L RiskLayer.network + L RiskLayer.physical ≤
      L' RiskLayer.cognitive + L' RiskLayer.network + L' RiskLayer.physical := by linarith
  linarith

lemma filter_append_in {pre post : List ProcessedSignal} {s : ProcessedSignal}
    {w : ℤ} {r : ℚ} (h : r - w ≤ s.timestamp) :
    filter_by_time_window (pre ++ s :: post) w r =
      filter_by_time_window pre w r ++ s :: filter_by_time_window post w r := by
  simp [filter_by_time_window, List.filter_append, List.filter_cons, h]
  linarith

lemma filter_append_out {pre post : List ProcessedSignal} {s : ProcessedSignal}
    {w : ℤ} {r : ℚ} (h : ¬ (r - w ≤ s.timestamp)) :
    filter_by_time_window (pre ++ s :: post) w r =
      filter_by_time_window pre w r ++ filter_by_time_window post w r := by
  simp [filter_by_time_window, List.filter_append, List.filter_cons, h]
  linarith [not_le.mp h]

lemma composite_mono_of_replace (district state : String)
    (pre post : List ProcessedSignal) (s s' : ProcessedSignal)
    (hts : s'.timestamp = s.timestamp) (hl : s'.risk_layers = s.risk_layers)
    (window_hours : ℤ) (ref now : ℚ)
    (hw : calculate_signal_weight s ref ≤ calculate_signal_weight s' ref) :
    (compute_district_risk district state (pre ++ s :: post)
      window_hours (some ref) now).composite_score ≤
    (compute_district_risk district state (pre ++ s' :: post)
      window_hours (some ref) now).composite_score := by
  by_cases hin : ref - window_hours ≤ s.timestamp
  · have hin' : ref - window_hours ≤ s'.timestamp := by rw [hts]; exact hin
    have hne : filter_by_time_window (pre ++ s :: post) window_hours ref ≠ [] := by
      rw [filter_append_in hin]
      simp
    have hne' : filter_by_time_window (pre ++ s' :: post) window_hours ref ≠ [] := by
      rw [filter_append_in hin']
      simp
    rw [compute_district_risk_nonempty hne, compute_district_risk_nonempty hne']
    dsimp only
    rw [filter_append_in hin, filter_append_in hin']
    exact compute_composite_mono (fun l =>
      aggregate_mono_replace (filter_by_time_window pre window_hours ref)
        (filter_by_time_window post window_hours ref) s s' hl ref hw l)
  · have hin' : ¬ (ref - window_hours ≤ s'.timestamp) := by rw [hts]; exact hin
    have heq : filter_by_time_window (pre ++ s :: post) window_hours ref =
        filter_by_time_window (pre ++ s' :: post) window_hours ref := by
      rw [filter_append_out hin, filter_append_out hin']
    by_cases hne : filter_by_time_window (pre ++ s :: post) window_hours ref = []
    · have hne' : filter_by_time_window (pre ++ s' :: post) window_hours ref = [] := by
        rw [← heq]
        exact hne
      rw [compute_district_risk_empty hne, compute_district_risk_empty hne']
    · have hne' : filter_by_time_window (pre ++ s' :: post) window_hours ref ≠ [] := by
        rw [← heq]
        exact hne
      rw [compute_district_risk_nonempty hne, compute_district_risk_nonempty hne']
      dsimp only
      rw [heq]

/-- C7: holding the district, state, window, reference time and all other
signals fixed, raising one escalatory signal's severity from 3 to 5 never
decreases the composite score of `compute_district_risk`. -/
theorem C7_severity_monotone (district state : String)
    (pre post : List ProcessedSignal) (s : ProcessedSignal)
    (hpol : s.polarity = Polarity.escalatory) (hsev : s.severity_score = 3)
    (window_hours : ℤ) (ref now : ℚ) :
    (compute_district_risk district state (pre ++ s :: post)
      window_hours (some ref) now).composite_score ≤
    (compute_district_risk district state (pre ++ set_severity s 5 :: post)
      window_hours (some ref) now).composite_score := by
  apply composite_mono_of_replace district state pre post s (set_severity s 5) rfl rfl
    window_hours ref now
  have h35 : s.severity_score ≤ 5 := by omega
  exact signal_weight_mono_severity hpol h35 ref

/-- Witness for C7 on a single escalatory severity-3 signal. -/
theorem C7_severity_monotone_witness :
    (compute_district_risk "Imphal West" "Manipur"
      [mk_signal "clash reported" 0 [RiskLayer.physical] Polarity.escalatory 3]
      24 (some 0) 0).composite_score ≤
    (compute_district_risk "Imphal West" "Manipur"
      [set_severity (mk_signal "clash reported" 0 [RiskLayer.physical] Polarity.escalatory 3) 5]
      24 (some 0) 0).composite_score :=
  C7_severity_monotone "Imphal West" "Manipur" [] []
    (mk_signal "clash reported" 0 [RiskLayer.physical] Polarity.escalatory 3)
    rfl rfl 24 0 0

/-- C8: for a signal set containing only escalatory signals, flipping exactly
one signal's polarity to stabilizing (all other fields and the reference time
equal) never increases the composite score of `compute_district_risk`. -/
theorem C8_stabilizing_flip_le (district state : String)
    (pre post : List ProcessedSignal) (s : ProcessedSignal)
    (hall : ∀ x ∈ pre ++ s :: post, x.polarity = Polarity.escalatory)
    (window_hours : ℤ) (ref now : ℚ) :
    (compute_district_risk district state
      (pre ++ set_polarity s Polarity.stabilizing :: post)
      window_hours (some ref) now).composite_score ≤
    (compute_district_risk district state (pre ++ s :: post)
      window_hours (some ref) now).composite_score := by
  have hpol : s.polarity = Polarity.escalatory := hall s (by simp)
  apply composite_mono_of_replace district state pre post
    (set_polarity s Polarity.stabilizing) s rfl rfl window_hours ref now
  exact signal_weight_stabilizing_le hpol ref

/-- Witness for C8 on a single escalatory signal. -/
theorem C8_stabilizing_flip_le_witness :
    (compute_district_risk "Imphal West" "Manipur"
      [set_polarity (mk_signal "protest rally" 0 [RiskLayer.cognitive] Polarity.escalatory 2)
        Polarity.stabilizing]
      24 (some 0) 0).composite_score ≤
    (compute_district_risk "Imphal West" "Manipur"
      [mk_signal "protest rally" 0 [RiskLayer.cognitive] Polarity.escalatory 2]
      24 (some 0) 0).composite_score :=
  C8_stabilizing_flip_le "Imphal West" "Manipur" [] []
    (mk_signal "protest rally" 0 [RiskLayer.cognitive] Polarity.escalatory 2)
    (by
      intro x hx
      simp only [List.nil_append, List.mem_singleton] at hx
      subst hx
      rfl)
    24 0 0

/-! ### C1: top-signal ranking depends on the wall clock -/

lemma recency_lb_small {t r : ℚ} (h0 : r - t ≤ 43) :
    1 - ((r - t : ℚ) : ℝ) / 48 ≤ calculate_recency_weight t r := by
  rw [recency_weight_eq_exp (by exact_mod_cast h0)]
  have := Real.add_one_le_exp (-(((r - t : ℚ) : ℝ) / 48))
  linarith

lemma c1_weight_A_floor {now : ℚ} (h : (432 : ℚ) ≤ now + 900) :
    calculate_signal_weight c1_sigA now = 0.1 := by
  rw [signal_weight_eq]
  simp only [c1_sigA, mk_signal]
  rw [recency_weight_floor (by linarith : (432 : ℚ) ≤ now - (-900))]
  simp only [calculate_geo_weight, polarity_factor]
  norm_num

lemma c1_weight_B_floor {now : ℚ} (h : (432 : ℚ) ≤ now + 1) :
    calculate_signal_weight c1_sigB now = 0.02 := by
  rw [signal_weight_eq]
  simp only [c1_sigB, mk_signal]
  rw [recency_weight_floor (by linarith : (432 : ℚ) ≤ now - (-1))]
  simp only [calculate_geo_weight, polarity_factor]
  norm_num

lemma c1_weight_B_now0_lb : (47/240 : ℝ) ≤ calculate_signal_weight c1_sigB 0 := by
  rw [signal_weight_eq]
  simp only [c1_sigB, mk_signal]
  have hr : 1 - (((0 : ℚ) - (-1) : ℚ) : ℝ) / 48 ≤ calculate_recency_weight (-1) 0 :=
    recency_lb_small (by norm_num)
  have hx : (((0 : ℚ) - (-1) : ℚ) : ℝ) = 1 := by push_cast; norm_num
  rw [hx] at hr
  simp only [calculate_geo_weight, polarity_factor]
  push_cast
  nlinarith [hr]

lemma select_top_two_swap {x y : ProcessedSignal} {now : ℚ}
    (h : ¬ (calculate_signal_weight y now ≤ calculate_signal_weight x now)) :
    select_top_signals [x, y] 3 now = [to_top_signal y, to_top_signal x] := by
  unfold select_top_signals
  simp only [List.map_cons, List.map_nil]
  have e1 : sort_desc [(x, calculate_signal_weight x now),
      (y, calculate_signal_weight y now)] =
      insert_desc (y, calculate_signal_weight y now)
        [(x, calculate_signal_weight x now)] := rfl
  rw [e1, insert_desc_cons, if_neg h]
  rfl

lemma select_top_two_keep {x y : ProcessedSignal} {now : ℚ}
    (h : calculate_signal_weight y now ≤ calculate_signal_weight x now) :
    select_top_signals [x, y] 3 now = [to_top_signal x, to_top_signal y] := by
  unfold select_top_signals
  simp only [List.map_cons, List.map_nil]
  have e1 : sort_desc [(x, calculate_signal_weight x now),
      (y, calculate_signal_weight y now)] =
      insert_desc (y, calculate_signal_weight y now)
        [(x, calculate_signal_weight x now)] := rfl
  rw [e1, insert_desc_cons, if_pos h, insert_desc_nil]
  rfl

/-- C1 fails on the source: `select_top_signals` calls
`calculate_signal_weight(signal)` without the reference time, so the ranking
weights decay against the wall clock.  With reference time fixed at 0, running
at wall clock 0 ranks the fresh low-severity signal first, while running at
wall clock 10000 ranks the old high-severity signal first (both recencies
floor at 0.1, leaving severity dominant): the two invocations return
different `top_signals`, violating the claimed determinism. -/
theorem C1_wall_clock_changes_top_signals :
    (compute_district_risk "Imphal West" "Manipur" [c1_sigA, c1_sigB]
      1000 (some 0) 0).top_signals ≠
    (compute_district_risk "Imphal West" "Manipur" [c1_sigA, c1_sigB]
      1000 (some 0) 10000).top_signals := by
  have hfilter : filter_by_time_window [c1_sigA, c1_sigB] 1000 0 = [c1_sigA, c1_sigB] := by
    simp only [filter_by_time_window, List.filter_eq_self, decide_eq_true_eq]
    intro a ha
    rcases List.mem_cons.mp ha with h | h
    · subst h
      norm_num [c1_sigA, mk_signal]
    · rw [List.mem_singleton.mp h]
      norm_num [c1_sigB, mk_signal]
  have hne : filter_by_time_window [c1_sigA, c1_sigB] 1000 0 ≠ [] := by
    rw [hfilter]
    exact List.cons_ne_nil _ _
  have hswap : ¬ (calculate_signal_weight c1_sigB 0 ≤ calculate_signal_weight c1_sigA 0) := by
    rw [c1_weight_A_floor (by norm_num)]
    exact not_le.mpr (lt_of_lt_of_le (by norm_num) c1_weight_B_now0_lb)
  have hkeep : calculate_signal_weight c1_sigB 10000 ≤ calculate_signal_weight c1_sigA 10000 := by
    rw [c1_weight_A_floor (by norm_num), c1_weight_B_floor (by norm_num)]
    norm_num
  rw [compute_district_risk_nonempty hne, compute_district_risk_nonempty hne]
  dsimp only
  rw [hfilter, select_top_two_swap hswap, select_top_two_keep hkeep]
  intro hcontra
  simp [to_top_signal, c1_sigA, c1_sigB, mk_signal] at hcontra

end NeNetra
